import Mathlib

/-!
Verification of the ShakeToFindCursor core (src/main.cpp) against its
natural-language specification.

The development shallowly embeds the three core components:

* `MouseMoveDetector` (gesture detection: `ShouldEnlargeCursor`,
  `DetectShakePattern`) — timestamps and displacements are modelled as `Int`
  (milliseconds / pixels); the floating-point speed computation is modelled
  over `ℝ`, with `Real.sqrt` standing for `std::sqrt`.
* `CursorState` (enlargement controller: `Enlarge`, `RestoreIfNeeded`,
  `RestoreOriginalCursor`) — the Win32 calls `CopyCursor` and
  `SetSystemCursor` are modelled as boolean host oracles (`copyOk`, `setOk`),
  and each transition additionally reports how many `SetSystemCursor`
  commands it issued.
* `CursorUtils.ScaleCursor` — the GDI surface allocation chain is modelled
  as a single boolean host oracle; `static_cast<int>` / `static_cast<DWORD>`
  of a non-negative `double` is truncation toward zero, modelled by
  `castTrunc` over `ℚ`.
-/

/-- Constants from `CursorConfig` in src/main.cpp. -/
def CursorConfig.kScaleFactor : ℚ := 3

def CursorConfig.kHistorySize : Nat := 10

def CursorConfig.kMinDirectionChanges : Nat := 5

noncomputable def CursorConfig.kMinMovementSpeed : ℝ := 800

def CursorConfig.kMaxTimeWindow : Int := 500

def CursorConfig.kEnlargeDurationMs : Int := 500

/-- `struct Movement { int dx; int dy; long long dt; }` from
`MouseMoveDetector` in src/main.cpp. -/
structure Movement where
  dx : Int
  dy : Int
  dt : Int
deriving DecidableEq, Repr

/-- The direction classification used by `DetectShakePattern`:
`(v > 0) ? 1 : (v < 0) ? -1 : 0`. -/
def directionOf (v : Int) : Int :=
  if v > 0 then 1 else if v < 0 then -1 else 0

/-- One iteration of the direction-change loop of `DetectShakePattern`
(src/main.cpp lines 338-354).  The accumulator is
`(last_x_dir, last_y_dir, direction_changes)`.  Note the source updates
`last_x_dir` / `last_y_dir` unconditionally, also when the current
direction is `0`. -/
def dirStep (acc : Int × Int × Nat) (mov : Movement) : Int × Int × Nat :=
  let curr_x_dir := directionOf mov.dx
  let curr_y_dir := directionOf mov.dy
  let c1 := if acc.1 ≠ 0 ∧ curr_x_dir ≠ 0 ∧ acc.1 ≠ curr_x_dir
            then acc.2.2 + 1 else acc.2.2
  let c2 := if acc.2.1 ≠ 0 ∧ curr_y_dir ≠ 0 ∧ acc.2.1 ≠ curr_y_dir
            then c1 + 1 else c1
  (curr_x_dir, curr_y_dir, c2)

/-- The `direction_changes` total computed by the loop of
`DetectShakePattern`, starting from `last_x_dir = last_y_dir = 0`. -/
def countDirChanges (movement_history : List Movement) : Nat :=
  (movement_history.foldl dirStep (0, 0, 0)).2.2

/-- The `total_time` accumulated by the loop of `DetectShakePattern`. -/
def totalTime (movement_history : List Movement) : Int :=
  (movement_history.map Movement.dt).sum

/-- The per-sample speed of `DetectShakePattern`:
`distance = sqrt(dx*dx + dy*dy)`, `speed = dt > 0 ? distance / dt * 1000 : 0`
(src/main.cpp lines 356-357). -/
noncomputable def speed (mov : Movement) : ℝ :=
  if mov.dt > 0 then
    Real.sqrt ((mov.dx * mov.dx + mov.dy * mov.dy : Int) : ℝ) / (mov.dt : ℝ) * 1000
  else 0

/-- The `total_speed` accumulated by the loop of `DetectShakePattern`. -/
noncomputable def totalSpeed (movement_history : List Movement) : ℝ :=
  (movement_history.map speed).sum

/-- `avg_speed = total_speed / movement_history_.size()`. -/
noncomputable def avgSpeed (movement_history : List Movement) : ℝ :=
  totalSpeed movement_history / (movement_history.length : ℝ)

/-- `MouseMoveDetector::DetectShakePattern` (src/main.cpp lines 327-371) as a
predicate on the movement history it reads: returns `false` when the history
is not full, `false` when the summed time exceeds the window, and otherwise
checks the direction-change and average-speed thresholds. -/
def MouseMoveDetector.DetectShakePattern (movement_history : List Movement) : Prop :=
  if movement_history.length < CursorConfig.kHistorySize then False
  else if totalTime movement_history > CursorConfig.kMaxTimeWindow then False
  else countDirChanges movement_history ≥ CursorConfig.kMinDirectionChanges ∧
       avgSpeed movement_history ≥ CursorConfig.kMinMovementSpeed

/-- `movement_history_.push_back(mov)` followed by the conditional
`pop_front` of src/main.cpp lines 309-312. -/
def pushHistory (h : List Movement) (mov : Movement) : List Movement :=
  if (h ++ [mov]).length > CursorConfig.kHistorySize then (h ++ [mov]).tail
  else h ++ [mov]

/-- State of `MouseMoveDetector`: `last_pos_`, `last_time_` (milliseconds)
and `movement_history_`. -/
structure MouseMoveDetector where
  last_pos : Int × Int
  last_time : Int
  movement_history : List Movement
deriving DecidableEq, Repr

/-- The `MouseMoveDetector` constructor: records the current position and
time with an empty history. -/
def MouseMoveDetector.init (p0 : Int × Int) (t0 : Int) : MouseMoveDetector :=
  ⟨p0, t0, []⟩

/-- `MouseMoveDetector::ShouldEnlargeCursor` (src/main.cpp lines 296-318):
returns the updated detector state together with the boolean result
(modelled as a `Prop` because the speed threshold lives in `ℝ`).
If `delta_time <= 0` it returns `false` without touching any state;
otherwise it appends the new movement (evicting the oldest entry when the
history would exceed `kHistorySize`), updates `last_pos_` / `last_time_`,
and returns `DetectShakePattern()` on the new history. -/
def MouseMoveDetector.ShouldEnlargeCursor (s : MouseMoveDetector)
    (current_pos : Int × Int) (now : Int) : MouseMoveDetector × Prop :=
  if now - s.last_time ≤ 0 then (s, False)
  else
    (⟨current_pos, now,
       pushHistory s.movement_history
         ⟨current_pos.1 - s.last_pos.1, current_pos.2 - s.last_pos.2,
          now - s.last_time⟩⟩,
     MouseMoveDetector.DetectShakePattern
       (pushHistory s.movement_history
         ⟨current_pos.1 - s.last_pos.1, current_pos.2 - s.last_pos.2,
          now - s.last_time⟩))

/-- Feed a list of `(position, timestamp)` samples to the detector and
return the final state paired with the result of the last call
(`False` when no sample was fed). -/
def runDetector : MouseMoveDetector → List ((Int × Int) × Int) →
    MouseMoveDetector × Prop
  | s, [] => (s, False)
  | s, [i] => s.ShouldEnlargeCursor i.1 i.2
  | s, i :: rest => runDetector (s.ShouldEnlargeCursor i.1 i.2).1 rest

/-- Feed a list of samples to the detector, returning only the final state. -/
def runState : MouseMoveDetector → List ((Int × Int) × Int) → MouseMoveDetector
  | s, [] => s
  | s, i :: rest => runState (s.ShouldEnlargeCursor i.1 i.2).1 rest

/-- Number of samples of the input list accepted by the detector
(those observed with a positive `delta_time`). -/
def countAccepted : MouseMoveDetector → List ((Int × Int) × Int) → Nat
  | _, [] => 0
  | s, i :: rest =>
    (if 0 < i.2 - s.last_time then 1 else 0) +
      countAccepted (s.ShouldEnlargeCursor i.1 i.2).1 rest

/-- The chronological list of movement records the detector accepts while
consuming the input list. -/
def acceptedMovements : MouseMoveDetector → List ((Int × Int) × Int) →
    List Movement
  | _, [] => []
  | s, i :: rest =>
    if 0 < i.2 - s.last_time then
      ⟨i.1.1 - s.last_pos.1, i.1.2 - s.last_pos.2, i.2 - s.last_time⟩ ::
        acceptedMovements (s.ShouldEnlargeCursor i.1 i.2).1 rest
    else acceptedMovements (s.ShouldEnlargeCursor i.1 i.2).1 rest

/-- The last `n` elements of a list. -/
def lastN (n : Nat) (l : List α) : List α :=
  l.drop (l.length - n)

/-- State of `CursorState` (src/main.cpp lines 209-286): whether the system
cursor is currently enlarged, and the time (milliseconds) at which
enlargement started. -/
structure CursorState where
  is_enlarged : Bool
  enlarge_start_time : Int
deriving DecidableEq, Repr

/-- `CursorState::Enlarge` (src/main.cpp lines 240-253).  `copyOk` models
`CopyCursor` succeeding, `setOk` models `SetSystemCursor` succeeding; the
returned `Nat` counts the `SetSystemCursor` (install) commands issued.
When already enlarged the body is skipped entirely. -/
def CursorState.Enlarge (s : CursorState) (now : Int) (copyOk setOk : Bool) :
    CursorState × Nat :=
  if !s.is_enlarged then
    if copyOk then
      if setOk then ({ is_enlarged := true, enlarge_start_time := now }, 1)
      else (s, 1)
    else (s, 0)
  else (s, 0)

/-- `CursorState::RestoreOriginalCursor` (src/main.cpp lines 269-280):
copies the original cursor and issues one `SetSystemCursor` (restore)
command; `is_enlarged_` is cleared only when the host accepts it. -/
def CursorState.RestoreOriginalCursor (s : CursorState) (copyOk setOk : Bool) :
    CursorState × Nat :=
  if s.is_enlarged then
    if copyOk then
      if setOk then ({ s with is_enlarged := false }, 1)
      else (s, 1)
    else (s, 0)
  else (s, 0)

/-- `CursorState::RestoreIfNeeded` (src/main.cpp lines 255-266): on a timer
tick, restore the original cursor once the elapsed time since enlargement
strictly exceeds `kEnlargeDurationMs`. -/
def CursorState.RestoreIfNeeded (s : CursorState) (now : Int)
    (copyOk setOk : Bool) : CursorState × Nat :=
  if s.is_enlarged then
    if now - s.enlarge_start_time > CursorConfig.kEnlargeDurationMs then
      s.RestoreOriginalCursor copyOk setOk
    else (s, 0)
  else (s, 0)

/-- The observable fields of a cursor image as read by `GetIconInfo` /
`GetObject` in `CursorUtils::ScaleCursor`: bitmap dimensions, hotspot
(`DWORD`, hence `ℕ`), and whether a color plane is present. -/
structure PointerImage where
  width : Int
  height : Int
  xHotspot : Nat
  yHotspot : Nat
  hasColor : Bool
deriving DecidableEq, Repr

/-- `static_cast<int>` / `static_cast<DWORD>` of a `double`: truncation
toward zero, modelled on `ℚ`. -/
def castTrunc (q : ℚ) : Int :=
  if 0 ≤ q then ⌊q⌋ else -⌊-q⌋

/-- `CursorUtils::ScaleCursor` (src/main.cpp lines 85-197).  A null source
cursor or a non-positive scale factor is rejected up front; `hostOk` models
the chain of GDI calls (`GetIconInfo`, `GetObject`, DC and surface
allocation, `CreateIconIndirect`) all succeeding — if any fails the function
returns `nullptr` (`none`).  On success the new dimensions and the new
hotspot are the source values multiplied by the factor and truncated by the
C++ casts, and the produced cursor always carries both planes. -/
def CursorUtils.ScaleCursor (src_cursor : Option PointerImage)
    (scale_factor : ℚ) (hostOk : Bool) : Option PointerImage :=
  match src_cursor with
  | none => none
  | some img =>
    if scale_factor ≤ 0 then none
    else if hostOk then
      some { width := castTrunc ((img.width : ℚ) * scale_factor)
             height := castTrunc ((img.height : ℚ) * scale_factor)
             xHotspot := (castTrunc ((img.xHotspot : ℚ) * scale_factor)).toNat
             yHotspot := (castTrunc ((img.yHotspot : ℚ) * scale_factor)).toNat
             hasColor := true }
    else none

section DetectorLemmas

lemma ShouldEnlargeCursor_of_nonpos (s : MouseMoveDetector) (p : Int × Int)
    (now : Int) (h : now - s.last_time ≤ 0) :
    s.ShouldEnlargeCursor p now = (s, False) := by
  unfold MouseMoveDetector.ShouldEnlargeCursor
  rw [if_pos h]

lemma ShouldEnlargeCursor_of_pos (s : MouseMoveDetector) (p : Int × Int)
    (now : Int) (h : 0 < now - s.last_time) :
    s.ShouldEnlargeCursor p now =
      (⟨p, now,
         pushHistory s.movement_history
           ⟨p.1 - s.last_pos.1, p.2 - s.last_pos.2, now - s.last_time⟩⟩,
       MouseMoveDetector.DetectShakePattern
         (pushHistory s.movement_history
           ⟨p.1 - s.last_pos.1, p.2 - s.last_pos.2, now - s.last_time⟩)) := by
  unfold MouseMoveDetector.ShouldEnlargeCursor
  rw [if_neg (by omega)]

lemma pushHistory_length_of_lt (h : List Movement) (mov : Movement)
    (hl : h.length + 1 ≤ CursorConfig.kHistorySize) :
    (pushHistory h mov).length = h.length + 1 := by
  unfold pushHistory
  rw [if_neg (by simp; omega)]
  simp

lemma pushHistory_length_le (h : List Movement) (mov : Movement)
    (hl : h.length ≤ CursorConfig.kHistorySize) :
    (pushHistory h mov).length ≤ CursorConfig.kHistorySize := by
  unfold pushHistory
  split
  · rename_i hc
    simp only [List.length_append, List.length_singleton] at hc
    simp only [List.length_tail, List.length_append, List.length_singleton]
    omega
  · rename_i hc
    simp only [List.length_append, List.length_singleton] at hc ⊢
    omega

lemma lastN_length (n : Nat) (l : List α) :
    (lastN n l).length = min n l.length := by
  simp [lastN]
  omega

lemma lastN_of_le (n : Nat) (l : List α) (h : l.length ≤ n) :
    lastN n l = l := by
  unfold lastN
  rw [Nat.sub_eq_zero_of_le h, List.drop_zero]

lemma pushHistory_lastN (L : List Movement) (mov : Movement) :
    pushHistory (lastN CursorConfig.kHistorySize L) mov =
      lastN CursorConfig.kHistorySize (L ++ [mov]) := by
  by_cases hL : L.length ≤ CursorConfig.kHistorySize - 1
  · rw [lastN_of_le _ _ (by omega), lastN_of_le, pushHistory]
    · rw [if_neg]
      simp [CursorConfig.kHistorySize] at hL ⊢
      omega
    · simp [CursorConfig.kHistorySize] at hL ⊢
      omega
  · have hk : CursorConfig.kHistorySize = 10 := rfl
    have hL10 : 10 ≤ L.length := by
      simp [hk] at hL
      omega
    have hlast : lastN CursorConfig.kHistorySize L = L.drop (L.length - 10) := by
      simp [lastN, hk]
    have hlen : (L.drop (L.length - 10)).length = 10 := by
      simp only [List.length_drop]
      omega
    rw [hlast]
    unfold pushHistory
    rw [if_pos (by
      simp only [List.length_append, List.length_singleton, hlen, hk]
      omega)]
    have h1 : L.drop (L.length - 10) ++ [mov] = (L ++ [mov]).drop (L.length - 10) :=
      (List.drop_append_of_le_length (by omega)).symm
    rw [h1, List.tail_drop]
    simp only [lastN, hk, List.length_append, List.length_singleton]
    congr 1
    omega

lemma DetectShakePattern_false_of_short (h : List Movement)
    (hl : h.length < CursorConfig.kHistorySize) :
    ¬ MouseMoveDetector.DetectShakePattern h := by
  unfold MouseMoveDetector.DetectShakePattern
  rw [if_pos hl]
  exact not_false

lemma DetectShakePattern_iff (h : List Movement)
    (hl : h.length ≤ CursorConfig.kHistorySize) :
    MouseMoveDetector.DetectShakePattern h ↔
      (h.length = CursorConfig.kHistorySize ∧
        totalTime h ≤ CursorConfig.kMaxTimeWindow ∧
        countDirChanges h ≥ CursorConfig.kMinDirectionChanges ∧
        avgSpeed h ≥ CursorConfig.kMinMovementSpeed) := by
  unfold MouseMoveDetector.DetectShakePattern
  by_cases hshort : h.length < CursorConfig.kHistorySize
  · rw [if_pos hshort]
    simp
    intro heq
    omega
  · rw [if_neg hshort]
    have heq : h.length = CursorConfig.kHistorySize := by omega
    by_cases ht : totalTime h > CursorConfig.kMaxTimeWindow
    · rw [if_pos ht]
      simp
      intro _ hcon
      omega
    · rw [if_neg ht]
      push_neg at ht
      constructor
      · intro ⟨h1, h2⟩
        exact ⟨heq, ht, h1, h2⟩
      · intro ⟨_, _, h3, h4⟩
        exact ⟨h3, h4⟩

lemma step_history_of_pos (s : MouseMoveDetector) (p : Int × Int) (now : Int)
    (h : 0 < now - s.last_time) :
    (s.ShouldEnlargeCursor p now).1.movement_history =
      pushHistory s.movement_history
        ⟨p.1 - s.last_pos.1, p.2 - s.last_pos.2, now - s.last_time⟩ := by
  rw [ShouldEnlargeCursor_of_pos s p now h]

lemma mem_pushHistory {h : List Movement} {mov m : Movement}
    (hm : m ∈ pushHistory h mov) : m ∈ h ++ [mov] := by
  unfold pushHistory at hm
  split at hm
  · exact List.mem_of_mem_tail hm
  · exact hm

lemma runDetector_fst : ∀ (inputs : List ((Int × Int) × Int))
    (s : MouseMoveDetector), (runDetector s inputs).1 = runState s inputs
  | [], _ => rfl
  | [_], _ => rfl
  | i :: j :: t, s => by
      rw [show runDetector s (i :: j :: t) =
            runDetector (s.ShouldEnlargeCursor i.1 i.2).1 (j :: t) from rfl,
          show runState s (i :: j :: t) =
            runState (s.ShouldEnlargeCursor i.1 i.2).1 (j :: t) from rfl]
      exact runDetector_fst (j :: t) _

lemma acceptedMovements_cons (s : MouseMoveDetector) (i : (Int × Int) × Int)
    (rest : List ((Int × Int) × Int)) :
    acceptedMovements s (i :: rest) =
      if 0 < i.2 - s.last_time then
        ⟨i.1.1 - s.last_pos.1, i.1.2 - s.last_pos.2, i.2 - s.last_time⟩ ::
          acceptedMovements (s.ShouldEnlargeCursor i.1 i.2).1 rest
      else acceptedMovements (s.ShouldEnlargeCursor i.1 i.2).1 rest := rfl

lemma countAccepted_eq_length : ∀ (inputs : List ((Int × Int) × Int))
    (s : MouseMoveDetector),
    countAccepted s inputs = (acceptedMovements s inputs).length
  | [], _ => rfl
  | i :: rest, s => by
      unfold countAccepted
      rw [acceptedMovements_cons]
      by_cases hdt : 0 < i.2 - s.last_time
      · rw [if_pos hdt, if_pos hdt]
        simp [countAccepted_eq_length rest, Nat.add_comm]
      · rw [if_neg hdt, if_neg hdt]
        simp [countAccepted_eq_length rest]

lemma runState_history : ∀ (inputs : List ((Int × Int) × Int))
    (s : MouseMoveDetector) (L : List Movement),
    s.movement_history = lastN CursorConfig.kHistorySize L →
    (runState s inputs).movement_history =
      lastN CursorConfig.kHistorySize (L ++ acceptedMovements s inputs)
  | [], s, L, hs => by simpa [runState, acceptedMovements] using hs
  | i :: rest, s, L, hs => by
      rw [show runState s (i :: rest) =
            runState (s.ShouldEnlargeCursor i.1 i.2).1 rest from rfl]
      by_cases hdt : 0 < i.2 - s.last_time
      · have hhist : (s.ShouldEnlargeCursor i.1 i.2).1.movement_history =
            lastN CursorConfig.kHistorySize
              (L ++ [⟨i.1.1 - s.last_pos.1, i.1.2 - s.last_pos.2,
                      i.2 - s.last_time⟩]) := by
          rw [step_history_of_pos s i.1 i.2 hdt, hs, pushHistory_lastN]
        rw [runState_history rest _ _ hhist]
        rw [acceptedMovements_cons, if_pos hdt, List.append_assoc]
        rfl
      · have hstep : (s.ShouldEnlargeCursor i.1 i.2).1 = s := by
          rw [ShouldEnlargeCursor_of_nonpos s i.1 i.2 (by omega)]
        rw [acceptedMovements_cons, if_neg hdt, hstep]
        exact runState_history rest s L hs

lemma runState_dt_pos : ∀ (inputs : List ((Int × Int) × Int))
    (s : MouseMoveDetector),
    (∀ m ∈ s.movement_history, 0 < m.dt) →
    ∀ m ∈ (runState s inputs).movement_history, 0 < m.dt
  | [], _, hinv => hinv
  | i :: rest, s, hinv => by
      rw [show runState s (i :: rest) =
            runState (s.ShouldEnlargeCursor i.1 i.2).1 rest from rfl]
      apply runState_dt_pos rest
      by_cases hdt : 0 < i.2 - s.last_time
      · rw [step_history_of_pos s i.1 i.2 hdt]
        intro m hm
        rcases List.mem_append.1 (mem_pushHistory hm) with h1 | h2
        · exact hinv m h1
        · rw [List.mem_singleton] at h2
          subst h2
          exact hdt
      · rw [ShouldEnlargeCursor_of_nonpos s i.1 i.2 (by omega)]
        exact hinv

lemma lastResult_false_of_small : ∀ (inputs : List ((Int × Int) × Int))
    (s : MouseMoveDetector),
    s.movement_history.length + countAccepted s inputs <
      CursorConfig.kHistorySize →
    ¬ (runDetector s inputs).2
  | [], _, _ => not_false
  | [i], s, hsmall => by
      rw [show runDetector s [i] = s.ShouldEnlargeCursor i.1 i.2 from rfl]
      by_cases hdt : 0 < i.2 - s.last_time
      · have hc : countAccepted s [i] = 1 := by
          unfold countAccepted countAccepted
          rw [if_pos hdt]
        rw [hc] at hsmall
        rw [ShouldEnlargeCursor_of_pos s i.1 i.2 hdt]
        apply DetectShakePattern_false_of_short
        rw [pushHistory_length_of_lt _ _ (by omega)]
        omega
      · rw [ShouldEnlargeCursor_of_nonpos s i.1 i.2 (by omega)]
        exact not_false
  | i :: j :: t, s, hsmall => by
      rw [show runDetector s (i :: j :: t) =
            runDetector (s.ShouldEnlargeCursor i.1 i.2).1 (j :: t) from rfl]
      apply lastResult_false_of_small (j :: t)
      have hc : countAccepted s (i :: j :: t) =
          (if 0 < i.2 - s.last_time then 1 else 0) +
            countAccepted (s.ShouldEnlargeCursor i.1 i.2).1 (j :: t) := rfl
      by_cases hdt : 0 < i.2 - s.last_time
      · rw [if_pos hdt] at hc
        rw [hc] at hsmall
        rw [step_history_of_pos s i.1 i.2 hdt,
            pushHistory_length_of_lt _ _ (by omega)]
        omega
      · rw [if_neg hdt] at hc
        have hstep : (s.ShouldEnlargeCursor i.1 i.2).1 = s := by
          rw [ShouldEnlargeCursor_of_nonpos s i.1 i.2 (by omega)]
        rw [hstep] at hc ⊢
        rw [hc] at hsmall
        omega

end DetectorLemmas

/-- Contribution of one axis to the direction-change count: `1` exactly when
the previous and the current direction are both non-zero and differ. -/
def axisChange (prev curr : Int) : Nat :=
  if prev ≠ 0 ∧ curr ≠ 0 ∧ prev ≠ curr then 1 else 0

/-- Direction changes counted between immediately adjacent samples only:
for each adjacent pair, each axis contributes a change exactly when both
directions are non-zero and differ. -/
def countDirChangesAdjacent : List Movement → Nat
  | m1 :: m2 :: rest =>
      axisChange (directionOf m1.dx) (directionOf m2.dx) +
        axisChange (directionOf m1.dy) (directionOf m2.dy) +
        countDirChangesAdjacent (m2 :: rest)
  | _ => 0

/-- Modelled from the spec: direction-change counting in which a
zero-direction sample is skipped — it neither counts as a change nor resets
the remembered last non-zero direction of its axis.  One loop iteration;
accumulator as in `dirStep`. -/
def dirStepSkip (acc : Int × Int × Nat) (mov : Movement) : Int × Int × Nat :=
  let curr_x_dir := directionOf mov.dx
  let curr_y_dir := directionOf mov.dy
  let c1 := if acc.1 ≠ 0 ∧ curr_x_dir ≠ 0 ∧ acc.1 ≠ curr_x_dir
            then acc.2.2 + 1 else acc.2.2
  let c2 := if acc.2.1 ≠ 0 ∧ curr_y_dir ≠ 0 ∧ acc.2.1 ≠ curr_y_dir
            then c1 + 1 else c1
  (if curr_x_dir ≠ 0 then curr_x_dir else acc.1,
   if curr_y_dir ≠ 0 then curr_y_dir else acc.2.1, c2)

/-- Modelled from the spec: the direction-change total under the
skip-zeros reading of the spec. -/
def countDirChangesSkip (movement_history : List Movement) : Nat :=
  (movement_history.foldl dirStepSkip (0, 0, 0)).2.2

/-- The running count of the `DetectShakePattern` loop, parameterised by the
remembered directions: used to characterise `countDirChanges`. -/
def countDirChangesFrom (last_x_dir last_y_dir : Int) : List Movement → Nat
  | [] => 0
  | mov :: rest =>
      axisChange last_x_dir (directionOf mov.dx) +
        axisChange last_y_dir (directionOf mov.dy) +
        countDirChangesFrom (directionOf mov.dx) (directionOf mov.dy) rest

section DirectionLemmas

lemma dirStep_eq (px py : Int) (c : Nat) (mov : Movement) :
    dirStep (px, py, c) mov =
      (directionOf mov.dx, directionOf mov.dy,
        c + axisChange px (directionOf mov.dx) +
          axisChange py (directionOf mov.dy)) := by
  simp only [dirStep, axisChange]
  split_ifs <;> simp_all

lemma countDirChangesFrom_cons (px py : Int) (mov : Movement)
    (rest : List Movement) :
    countDirChangesFrom px py (mov :: rest) =
      axisChange px (directionOf mov.dx) + axisChange py (directionOf mov.dy) +
        countDirChangesFrom (directionOf mov.dx) (directionOf mov.dy) rest := rfl

lemma countDirChangesAdjacent_cons_cons (m1 m2 : Movement)
    (rest : List Movement) :
    countDirChangesAdjacent (m1 :: m2 :: rest) =
      axisChange (directionOf m1.dx) (directionOf m2.dx) +
        axisChange (directionOf m1.dy) (directionOf m2.dy) +
        countDirChangesAdjacent (m2 :: rest) := rfl

lemma foldl_dirStep : ∀ (l : List Movement) (px py : Int) (c : Nat),
    (l.foldl dirStep (px, py, c)).2.2 =
      c + countDirChangesFrom px py l
  | [], _, _, _ => rfl
  | mov :: rest, px, py, c => by
      rw [List.foldl_cons, dirStep_eq, foldl_dirStep rest,
          countDirChangesFrom_cons]
      omega

lemma countDirChangesFrom_eq_adjacent :
    ∀ (l : List Movement) (mov : Movement),
    countDirChangesFrom (directionOf mov.dx) (directionOf mov.dy) l =
      countDirChangesAdjacent (mov :: l)
  | [], _ => rfl
  | m2 :: rest, mov => by
      rw [countDirChangesFrom_cons, countDirChangesAdjacent_cons_cons,
          countDirChangesFrom_eq_adjacent rest m2]

lemma axisChange_zero (d : Int) : axisChange 0 d = 0 := by
  simp [axisChange]

end DirectionLemmas

/-- Claim C1: for every (reachable) state of the detector, an observation
with positive elapsed time returns true iff the resulting motion history
holds the full `N = 10` samples and, over that window,
`total_time ≤ 500 ms`, `direction_changes ≥ 5` and `avg_speed ≥ 800 px/s`;
and for any input sequence with fewer than 10 accepted samples, `observe`
returns false. -/
theorem observe_true_iff_full_window :
    (∀ (s : MouseMoveDetector) (p : Int × Int) (now : Int),
      s.movement_history.length ≤ CursorConfig.kHistorySize →
      0 < now - s.last_time →
      ((s.ShouldEnlargeCursor p now).2 ↔
        ((s.ShouldEnlargeCursor p now).1.movement_history.length =
            CursorConfig.kHistorySize ∧
          totalTime (s.ShouldEnlargeCursor p now).1.movement_history ≤
            CursorConfig.kMaxTimeWindow ∧
          countDirChanges (s.ShouldEnlargeCursor p now).1.movement_history ≥
            CursorConfig.kMinDirectionChanges ∧
          avgSpeed (s.ShouldEnlargeCursor p now).1.movement_history ≥
            CursorConfig.kMinMovementSpeed))) ∧
    (∀ (p0 : Int × Int) (t0 : Int) (inputs : List ((Int × Int) × Int)),
      countAccepted (MouseMoveDetector.init p0 t0) inputs <
        CursorConfig.kHistorySize →
      ¬ (runDetector (MouseMoveDetector.init p0 t0) inputs).2) := by
  constructor
  · intro s p now hlen hdt
    rw [ShouldEnlargeCursor_of_pos s p now hdt]
    exact DetectShakePattern_iff _ (pushHistory_length_le _ _ hlen)
  · intro p0 t0 inputs hcount
    apply lastResult_false_of_small
    simpa [MouseMoveDetector.init] using hcount

/-- Witness for C1: a single accepted sample is fewer than 10, so the
observation returns false. -/
theorem observe_true_iff_full_window_check :
    countAccepted (MouseMoveDetector.init (0, 0) 0) [((0, 0), 1)] <
        CursorConfig.kHistorySize ∧
    ¬ (runDetector (MouseMoveDetector.init (0, 0) 0) [((0, 0), 1)]).2 :=
  ⟨by decide, observe_true_iff_full_window.2 (0, 0) 0 [((0, 0), 1)] (by decide)⟩

/-- The concrete 10-sample window refuting claim C2: on the x axis a
positive sample, then a zero-displacement sample, then a negative sample
(followed by zero samples).  The spec's skip-zeros reading counts the
`+ → -` reversal; the code counts nothing, because the zero sample resets
the remembered direction. -/
def zeroGapWindow : List Movement :=
  [⟨1, 0, 1⟩, ⟨0, 0, 1⟩, ⟨-1, 0, 1⟩, ⟨0, 0, 1⟩, ⟨0, 0, 1⟩,
   ⟨0, 0, 1⟩, ⟨0, 0, 1⟩, ⟨0, 0, 1⟩, ⟨0, 0, 1⟩, ⟨0, 0, 1⟩]

/-- Counterexample to claim C2: in a window whose x-axis directions are
`+1, 0, -1, 0, …`, the code's loop counts zero direction changes, while the
claimed skip-zeros counting yields one — the reversal across the zero
sample is NOT still counted. -/
theorem zero_sample_resets_direction_memory :
    countDirChanges zeroGapWindow = 0 ∧
    countDirChangesSkip zeroGapWindow = 1 :=
  ⟨by decide, by decide⟩

/-- Claim C2 (amended): for each axis a change is counted exactly when two
immediately adjacent samples both have non-zero directions that differ; a
zero-displacement sample resets the remembered direction of its axis, so a
reversal separated by a zero sample is not counted. -/
theorem countDirChanges_adjacent_only (movement_history : List Movement) :
    countDirChanges movement_history =
      countDirChangesAdjacent movement_history := by
  cases movement_history with
  | nil => rfl
  | cons mov rest =>
      unfold countDirChanges
      rw [List.foldl_cons, dirStep_eq, foldl_dirStep,
          countDirChangesFrom_eq_adjacent]
      simp [axisChange_zero]

/-- Claim C6: after any input sequence, the motion history is exactly the
last 10 accepted movement records in chronological order (oldest evicted
first), its length is `min 10 (number of accepted samples)`, and it never
exceeds 10. -/
theorem motion_history_invariant (p0 : Int × Int) (t0 : Int)
    (inputs : List ((Int × Int) × Int)) :
    (runState (MouseMoveDetector.init p0 t0) inputs).movement_history =
      lastN CursorConfig.kHistorySize
        (acceptedMovements (MouseMoveDetector.init p0 t0) inputs) ∧
    (runState (MouseMoveDetector.init p0 t0) inputs).movement_history.length =
      min CursorConfig.kHistorySize
        (countAccepted (MouseMoveDetector.init p0 t0) inputs) ∧
    (runState (MouseMoveDetector.init p0 t0) inputs).movement_history.length ≤
      CursorConfig.kHistorySize := by
  have h1 : (runState (MouseMoveDetector.init p0 t0) inputs).movement_history =
      lastN CursorConfig.kHistorySize
        (acceptedMovements (MouseMoveDetector.init p0 t0) inputs) := by
    have h0 := runState_history inputs (MouseMoveDetector.init p0 t0) [] rfl
    simpa using h0
  refine ⟨h1, ?_, ?_⟩
  · rw [h1, lastN_length, countAccepted_eq_length]
  · rw [h1, lastN_length]
    omega

/-- Claim C7: an observation whose elapsed time is non-positive returns
false and leaves the whole detector state — motion history, stored last
position and stored last timestamp — unchanged. -/
theorem observe_nonpositive_dt_noop (s : MouseMoveDetector) (p : Int × Int)
    (now : Int) (h : now - s.last_time ≤ 0) :
    s.ShouldEnlargeCursor p now = (s, False) ∧
    ¬ (s.ShouldEnlargeCursor p now).2 := by
  have heq := ShouldEnlargeCursor_of_nonpos s p now h
  refine ⟨heq, ?_⟩
  rw [heq]
  exact not_false

/-- Witness for C7: a duplicate-timestamp sample is rejected and the state
is returned untouched. -/
theorem observe_nonpositive_dt_noop_check :
    (5 : Int) - (MouseMoveDetector.init (3, 4) 5).last_time ≤ 0 ∧
    MouseMoveDetector.ShouldEnlargeCursor (MouseMoveDetector.init (3, 4) 5)
        (9, 9) 5 =
      (MouseMoveDetector.init (3, 4) 5, False) :=
  ⟨by decide, (observe_nonpositive_dt_noop (MouseMoveDetector.init (3, 4) 5)
    (9, 9) 5 (by decide)).1⟩

/-- Claim C10: every movement stored in a reachable motion history has
`dt > 0`, so for every stored sample the speed computation takes the
`distance / dt * 1000` branch — the zero-speed fallback for `dt ≤ 0` is
never used on stored samples. -/
theorem stored_samples_have_positive_dt (p0 : Int × Int) (t0 : Int)
    (inputs : List ((Int × Int) × Int)) (m : Movement)
    (hm : m ∈ (runState (MouseMoveDetector.init p0 t0) inputs).movement_history) :
    0 < m.dt ∧
    speed m = Real.sqrt ((m.dx * m.dx + m.dy * m.dy : Int) : ℝ) /
      (m.dt : ℝ) * 1000 := by
  have hpos : 0 < m.dt := by
    refine runState_dt_pos inputs (MouseMoveDetector.init p0 t0) ?_ m hm
    intro m' hm'
    simp [MouseMoveDetector.init] at hm'
  refine ⟨hpos, ?_⟩
  unfold speed
  rw [if_pos hpos]

/-- Witness for C10: the single stored movement of a one-sample run. -/
theorem stored_samples_have_positive_dt_check :
    0 < (Movement.mk 1 0 1).dt ∧
    speed ⟨1, 0, 1⟩ = Real.sqrt (((1 : Int) * 1 + 0 * 0 : Int) : ℝ) /
      ((1 : Int) : ℝ) * 1000 :=
  stored_samples_have_positive_dt (0, 0) 0 [((1, 0), 1)] ⟨1, 0, 1⟩ (by decide)

/-- Claim C3: in state `Enlarged{since = T}` with a cooperating host, a tick
with `now - T ≤ 500 ms` (e.g. `T + 400`) leaves the state enlarged and
issues no restore command, while a tick with `now - T > 500 ms`
(e.g. `T + 600`) clears the enlarged flag and issues exactly one restore
command. -/
theorem tick_dwell_transition (T now : Int) :
    (now - T ≤ 500 →
      CursorState.RestoreIfNeeded ⟨true, T⟩ now true true = (⟨true, T⟩, 0)) ∧
    (now - T > 500 →
      CursorState.RestoreIfNeeded ⟨true, T⟩ now true true = (⟨false, T⟩, 1)) := by
  constructor
  · intro h
    unfold CursorState.RestoreIfNeeded
    rw [if_pos rfl, if_neg (by simp [CursorConfig.kEnlargeDurationMs]; omega)]
  · intro h
    unfold CursorState.RestoreIfNeeded CursorState.RestoreOriginalCursor
    rw [if_pos rfl, if_pos (by simpa [CursorConfig.kEnlargeDurationMs] using h)]
    rfl

/-- Witness for C3: with `since = 0`, a tick at 400 ms does nothing and a
tick at 600 ms restores exactly once. -/
theorem tick_dwell_transition_check :
    CursorState.RestoreIfNeeded ⟨true, 0⟩ 400 true true = (⟨true, 0⟩, 0) ∧
    CursorState.RestoreIfNeeded ⟨true, 0⟩ 600 true true = (⟨false, 0⟩, 1) :=
  ⟨(tick_dwell_transition 0 400).1 (by decide),
   (tick_dwell_transition 0 600).2 (by decide)⟩

/-- Claim C4: once enlarged, a further positive classification is a no-op —
`Enlarge` keeps the state (including the `since` timestamp) untouched and
issues no install command, whatever the host would have answered. -/
theorem enlarge_idempotent_when_enlarged (s : CursorState) (now : Int)
    (copyOk setOk : Bool) (h : s.is_enlarged = true) :
    s.Enlarge now copyOk setOk = (s, 0) := by
  unfold CursorState.Enlarge
  rw [h]
  rfl

/-- Witness for C4: re-triggering at time 7 while enlarged since time 5
changes nothing. -/
theorem enlarge_idempotent_when_enlarged_check :
    CursorState.Enlarge ⟨true, 5⟩ 7 true true = (⟨true, 5⟩, 0) :=
  enlarge_idempotent_when_enlarged ⟨true, 5⟩ 7 true true rfl

/-- Claim C8: when the host declines the restore command issued by a tick
past the dwell, the state stays `Enlarged` with the same `since`, so the
next tick past the dwell issues the restore command again — a failed
restore is retried, never abandoned. -/
theorem failed_restore_retried (T now now2 : Int) (h : now - T > 500)
    (h2 : now2 - T > 500) :
    CursorState.RestoreIfNeeded ⟨true, T⟩ now true false = (⟨true, T⟩, 1) ∧
    CursorState.RestoreIfNeeded
        (CursorState.RestoreIfNeeded ⟨true, T⟩ now true false).1 now2 true true =
      (⟨false, T⟩, 1) := by
  have hfail :
      CursorState.RestoreIfNeeded ⟨true, T⟩ now true false = (⟨true, T⟩, 1) := by
    unfold CursorState.RestoreIfNeeded CursorState.RestoreOriginalCursor
    rw [if_pos rfl, if_pos (by simpa [CursorConfig.kEnlargeDurationMs] using h)]
    rfl
  refine ⟨hfail, ?_⟩
  rw [hfail]
  unfold CursorState.RestoreIfNeeded CursorState.RestoreOriginalCursor
  rw [if_pos rfl, if_pos (by simpa [CursorConfig.kEnlargeDurationMs] using h2)]
  rfl

/-- Witness for C8: a restore declined at 600 ms leaves the controller
enlarged and the retry at 700 ms succeeds. -/
theorem failed_restore_retried_check :
    CursorState.RestoreIfNeeded ⟨true, 0⟩ 600 true false = (⟨true, 0⟩, 1) ∧
    CursorState.RestoreIfNeeded
        (CursorState.RestoreIfNeeded ⟨true, 0⟩ 600 true false).1 700 true true =
      (⟨false, 0⟩, 1) :=
  failed_restore_retried 0 600 700 (by decide) (by decide)

/-- The concrete source image refuting claim C5: a 32×32 cursor with
hotspot `(1, 1)`. -/
def hotspotOneImage : PointerImage :=
  ⟨32, 32, 1, 1, true⟩

lemma ScaleCursor_some (img : PointerImage) (f : ℚ) (hostOk : Bool) :
    CursorUtils.ScaleCursor (some img) f hostOk =
      if f ≤ 0 then none
      else if hostOk then
        some { width := castTrunc ((img.width : ℚ) * f)
               height := castTrunc ((img.height : ℚ) * f)
               xHotspot := (castTrunc ((img.xHotspot : ℚ) * f)).toNat
               yHotspot := (castTrunc ((img.yHotspot : ℚ) * f)).toNat
               hasColor := true }
      else none := rfl

/-- Counterexample to claim C5: with scale factor `3/2`, the produced
hotspot x-coordinate is `1` (the C++ `static_cast<DWORD>` truncates
`1 × 1.5 = 1.5` to `1`), whereas the claimed `round(old_hotspot.x × f)` is
`2`. -/
theorem scaled_hotspot_not_rounded :
    (CursorUtils.ScaleCursor (some hotspotOneImage) (3 / 2) true).map
        PointerImage.xHotspot = some 1 ∧
    round ((hotspotOneImage.xHotspot : ℚ) * (3 / 2)) = 2 := by
  constructor
  · rw [ScaleCursor_some, if_neg (by norm_num), if_pos rfl]
    norm_num [hotspotOneImage, castTrunc]
  · norm_num [hotspotOneImage, round_eq]

/-- Claim C5 (amended): for every source image and every scale factor
`f > 0` with a cooperating host, the scaled image's hotspot is
`(⌊old_hotspot.x × f⌋, ⌊old_hotspot.y × f⌋)` — the C++ cast truncates the
product (toward zero, which is `⌊·⌋` here since both factors are
non-negative) instead of rounding it. -/
theorem scaled_hotspot_floor (img : PointerImage) (f : ℚ) (hf : 0 < f) :
    (CursorUtils.ScaleCursor (some img) f true).map PointerImage.xHotspot =
      some ⌊(img.xHotspot : ℚ) * f⌋.toNat ∧
    (CursorUtils.ScaleCursor (some img) f true).map PointerImage.yHotspot =
      some ⌊(img.yHotspot : ℚ) * f⌋.toNat := by
  have hx : castTrunc ((img.xHotspot : ℚ) * f) = ⌊(img.xHotspot : ℚ) * f⌋ := by
    unfold castTrunc
    rw [if_pos (by positivity)]
  have hy : castTrunc ((img.yHotspot : ℚ) * f) = ⌊(img.yHotspot : ℚ) * f⌋ := by
    unfold castTrunc
    rw [if_pos (by positivity)]
  rw [ScaleCursor_some, if_neg (not_le.mpr hf), if_pos rfl]
  simp [hx, hy]

/-- Witness for C5 (amended): scaling the hotspot-(1,1) image by `3/2`
yields hotspot `(⌊3/2⌋, ⌊3/2⌋) = (1, 1)`. -/
theorem scaled_hotspot_floor_check :
    0 < (3 / 2 : ℚ) ∧
    (CursorUtils.ScaleCursor (some hotspotOneImage) (3 / 2) true).map
        PointerImage.xHotspot =
      some ⌊(hotspotOneImage.xHotspot : ℚ) * (3 / 2)⌋.toNat :=
  ⟨by norm_num, (scaled_hotspot_floor hotspotOneImage (3 / 2) (by norm_num)).1⟩

/-- Claim C9: a non-positive scale factor, or an absent source cursor,
makes `ScaleCursor` fail outright — it returns no image at all, regardless
of the host. -/
theorem scale_rejects_invalid (src : Option PointerImage) (f : ℚ)
    (hostOk : Bool) (h : f ≤ 0 ∨ src = none) :
    CursorUtils.ScaleCursor src f hostOk = none := by
  cases src with
  | none => rfl
  | some img =>
      rcases h with h | h
      · rw [ScaleCursor_some, if_pos h]
      · exact absurd h (by simp)

/-- Witness for C9: factor `-1` on a real image is rejected. -/
theorem scale_rejects_invalid_check :
    CursorUtils.ScaleCursor (some hotspotOneImage) (-1) true = none :=
  scale_rejects_invalid (some hotspotOneImage) (-1) true
    (Or.inl (by norm_num))

